import Mathlib

/-!
A shallow embedding of the gocsi server-side idempotency interceptor
(`interceptors_server_idemp.go`) and of the mock CSI service
(Controller/Node RPC implementations), together with proofs of the
specification's claims about them.

Modelling conventions:
  * Go `(*Response, error)` pairs are modelled as `Except String (Reply α)`:
    a `.error e` is a non-nil transport-level error (the Go code never
    returns both a non-nil response and a non-nil error), and `.ok r` is a
    transport-level success carrying the typed reply `r`, which itself is
    either a result variant or an embedded error variant.
  * Embedded error replies are modelled by their error code; the
    human-readable message strings (always empty in the interceptor) are
    not modelled.
  * `TryLock` outcomes depend on concurrent timing, so each procedure takes
    the outcome of its try-lock acquisition as a boolean parameter
    (`acquired`); the configured timeout duration only feeds `TryLock` and
    is therefore absorbed into that boolean.
  * The `methodInErr` set of a lock record (a Go `map[string]struct{}`) is
    modelled as a `List String` considered up to membership; insertion is
    membership-preserving and deletion removes all occurrences.
  * Every oracle (`IdempotencyProvider`) call and every invocation of the
    downstream handler is recorded in an event trace, so that claims of the
    form "the oracle is not queried" / "the handler is invoked at most
    once" are statements about the trace.
  * The downstream handler's return value for the single call a procedure
    may make is passed in as an `Except String (Reply α)` value.
  * The name-lock deferred hook of `createVolume` re-asserts the response
    in its branch body (a single-form type assertion on a nil interface
    whenever a non-nil transport error is being returned), so every
    transport-error exit of `createVolume` panics in that hook instead of
    returning; `CreateResult.panicked` models this. The id-lock hook runs
    first (LIFO) and has no such re-assertion, so its update still
    happens. The five id-locked procedures' hooks only touch the response
    behind a short-circuiting condition and cannot panic this way.
-/

namespace Gocsi

/-- A `map[string]string` publication-info map. -/
abbrev PubMap := List (String × String)

/-- The empty string, passed by the interceptor as the unused half of the
oracle's `(id, name)` lookup key. -/
def emptyS : String := ""

/-- The `csi.VolumeInfo` record: the interceptor only reads its `Id`; the mock service
also fills in a name and a capacity. -/
structure VolumeInfo where
  id : String
  name : String
  capacityBytes : Int
deriving Repr, DecidableEq

/-- The embedded error codes used by the modelled code paths. Each Go RPC
has its own error enum; the codes relevant here are shared by name. -/
inductive ErrCode where
  | operationPending
  | volumeDoesNotExist
  | general (n : Nat)
deriving Repr, DecidableEq

/-- A typed RPC reply: either the result variant or an embedded error
variant (`GetError() != nil`). -/
inductive Reply (α : Type) where
  | result (value : α)
  | error (code : ErrCode)
deriving Repr, DecidableEq

/-- One observable call made by a procedure: an oracle query or an
invocation of the downstream handler. -/
inductive Event where
  | getVolumeInfo (id name : String)
  | isControllerPublished (id node : String)
  | isNodePublished (id target : String)
  | handlerCalled
deriving Repr, DecidableEq

/-- The `IdempotencyProvider` oracle, as pure response functions. -/
structure Oracle where
  getVolumeInfo : String → String → Except String (Option VolumeInfo)
  isControllerPublished : String → String → Except String (Option PubMap)
  isNodePublished : String → PubMap → String → Except String Bool

/-- The `idempIntercOpts` options: the try-lock timeout itself is absorbed into the
per-call `acquired` booleans, leaving the `requireVolume` flag. -/
structure IdempOpts where
  requireVolume : Bool
deriving Repr, DecidableEq

/-- Insertion into a `map[string]struct{}` keyed set. -/
def insertMethod (m : String) (s : List String) : List String :=
  if m ∈ s then s else m :: s

/-- Deletion from a `map[string]struct{}` keyed set. -/
def removeMethod (m : String) (s : List String) : List String :=
  s.filter (fun x => x ≠ m)

/-- Whether a procedure outcome is a failure: a non-nil transport-level
error, or a reply whose `GetError()` is non-nil. -/
def resultHasErr {α : Type} : Except String (Reply α) → Bool
  | .error _ => true
  | .ok (.error _) => true
  | .ok (.result _) => false

/-- Whether a procedure outcome is a transport-level success carrying an
embedded `OPERATION_PENDING_FOR_VOLUME` error. -/
def isPendingResult {α : Type} : Except String (Reply α) → Bool
  | .ok (.error .operationPending) => true
  | _ => false

/-- The deferred outcome hook shared by the five id-locked procedures:
on failure insert the method into the lock record's in-error set, on
success remove it. -/
def markOutcome {α : Type} (fullMethod : String) (mie : List String)
    (r : Except String (Reply α)) : List String :=
  if resultHasErr r then insertMethod fullMethod mie
  else removeMethod fullMethod mie

/-- The deferred outcome hook of `createVolume`'s name lock, on an exit
whose response is an actual reply: like `markOutcome` but an embedded
`OPERATION_PENDING_FOR_VOLUME` error is treated as transient and leaves
the set unchanged. On a transport-error exit this hook never gets this
far: its body re-asserts `res.(*csi.CreateVolumeResponse)` on the nil
response and panics (see `nameHookExit`). -/
def markOutcomeCreate (fullMethod : String) (mie : List String) :
    Reply VolumeInfo → List String
  | .error .operationPending => mie
  | .error _ => insertMethod fullMethod mie
  | .result _ => removeMethod fullMethod mie

/-- State of an id-locked procedure at exit: the outcome, the lock
record's in-error set after the deferred hook ran, and the trace of
oracle/handler calls. -/
structure ProcOut (α : Type) where
  result : Except String (Reply α)
  methodInErr : List String
  events : List Event

/-- Builds the exit state of an id-locked procedure: the registered
deferred hook classifies the outcome and updates the in-error set. -/
def finishProc {α : Type} (fullMethod : String) (mie : List String)
    (r : Except String (Reply α)) (evs : List Event) : ProcOut α :=
  ⟨r, markOutcome fullMethod mie r, evs⟩

/-- The procedure `idempotencyInterceptor.controllerPublishVolume`. -/
def controllerPublishVolume (opts : IdempOpts) (acquired : Bool)
    (mie : List String) (fullMethod : String) (oracle : Oracle)
    (handler : Except String (Reply PubMap))
    (volumeId nodeId : String) : ProcOut PubMap :=
  if !acquired then
    ⟨.ok (.error .operationPending), mie, []⟩
  else
    -- body after the lock is held; `finishProc` is the deferred hook
    let rest := fun (pre : List Event) =>
      match oracle.isControllerPublished volumeId nodeId with
      | .error e =>
          finishProc fullMethod mie (.error e)
            (pre ++ [.isControllerPublished volumeId nodeId])
      | .ok (some pubInfo) =>
          finishProc fullMethod mie (.ok (.result pubInfo))
            (pre ++ [.isControllerPublished volumeId nodeId])
      | .ok none =>
          finishProc fullMethod mie handler
            (pre ++ [.isControllerPublished volumeId nodeId, .handlerCalled])
    if fullMethod ∈ mie then
      finishProc fullMethod mie handler [.handlerCalled]
    else if opts.requireVolume then
      match oracle.getVolumeInfo volumeId emptyS with
      | .error e =>
          finishProc fullMethod mie (.error e) [.getVolumeInfo volumeId emptyS]
      | .ok none =>
          finishProc fullMethod mie (.ok (.error .volumeDoesNotExist))
            [.getVolumeInfo volumeId emptyS]
      | .ok (some _) => rest [.getVolumeInfo volumeId emptyS]
    else
      rest []

/-- The procedure `idempotencyInterceptor.controllerUnpublishVolume`. -/
def controllerUnpublishVolume (opts : IdempOpts) (acquired : Bool)
    (mie : List String) (fullMethod : String) (oracle : Oracle)
    (handler : Except String (Reply Unit))
    (volumeId nodeId : String) : ProcOut Unit :=
  if !acquired then
    ⟨.ok (.error .operationPending), mie, []⟩
  else
    let rest := fun (pre : List Event) =>
      match oracle.isControllerPublished volumeId nodeId with
      | .error e =>
          finishProc fullMethod mie (.error e)
            (pre ++ [.isControllerPublished volumeId nodeId])
      | .ok none =>
          finishProc fullMethod mie (.ok (.result ()))
            (pre ++ [.isControllerPublished volumeId nodeId])
      | .ok (some _) =>
          finishProc fullMethod mie handler
            (pre ++ [.isControllerPublished volumeId nodeId, .handlerCalled])
    if fullMethod ∈ mie then
      finishProc fullMethod mie handler [.handlerCalled]
    else if opts.requireVolume then
      match oracle.getVolumeInfo volumeId emptyS with
      | .error e =>
          finishProc fullMethod mie (.error e) [.getVolumeInfo volumeId emptyS]
      | .ok none =>
          finishProc fullMethod mie (.ok (.error .volumeDoesNotExist))
            [.getVolumeInfo volumeId emptyS]
      | .ok (some _) => rest [.getVolumeInfo volumeId emptyS]
    else
      rest []

/-- The procedure `idempotencyInterceptor.deleteVolume`. The Go body tracks a
`volExists` boolean: the second oracle lookup runs only when the
require-volume precheck did not already establish existence. -/
def deleteVolume (opts : IdempOpts) (acquired : Bool)
    (mie : List String) (fullMethod : String) (oracle : Oracle)
    (handler : Except String (Reply Unit))
    (volumeId : String) : ProcOut Unit :=
  if !acquired then
    ⟨.ok (.error .operationPending), mie, []⟩
  else if fullMethod ∈ mie then
    finishProc fullMethod mie handler [.handlerCalled]
  else if opts.requireVolume then
    match oracle.getVolumeInfo volumeId emptyS with
    | .error e =>
        finishProc fullMethod mie (.error e) [.getVolumeInfo volumeId emptyS]
    | .ok none =>
        finishProc fullMethod mie (.ok (.error .volumeDoesNotExist))
          [.getVolumeInfo volumeId emptyS]
    | .ok (some _) =>
        -- volExists is true, so the `if !volExists` lookup is skipped
        -- and the `if !volExists` short-circuit does not fire
        finishProc fullMethod mie handler
          [.getVolumeInfo volumeId emptyS, .handlerCalled]
  else
    match oracle.getVolumeInfo volumeId emptyS with
    | .error e =>
        finishProc fullMethod mie (.error e) [.getVolumeInfo volumeId emptyS]
    | .ok none =>
        -- volExists is false: idempotent delete short-circuit
        finishProc fullMethod mie (.ok (.result ()))
          [.getVolumeInfo volumeId emptyS]
    | .ok (some _) =>
        finishProc fullMethod mie handler
          [.getVolumeInfo volumeId emptyS, .handlerCalled]

/-- The procedure `idempotencyInterceptor.nodePublishVolume`. -/
def nodePublishVolume (opts : IdempOpts) (acquired : Bool)
    (mie : List String) (fullMethod : String) (oracle : Oracle)
    (handler : Except String (Reply Unit))
    (volumeId : String) (publishVolumeInfo : PubMap)
    (targetPath : String) : ProcOut Unit :=
  if !acquired then
    ⟨.ok (.error .operationPending), mie, []⟩
  else
    let rest := fun (pre : List Event) =>
      match oracle.isNodePublished volumeId publishVolumeInfo targetPath with
      | .error e =>
          finishProc fullMethod mie (.error e)
            (pre ++ [.isNodePublished volumeId targetPath])
      | .ok true =>
          finishProc fullMethod mie (.ok (.result ()))
            (pre ++ [.isNodePublished volumeId targetPath])
      | .ok false =>
          finishProc fullMethod mie handler
            (pre ++ [.isNodePublished volumeId targetPath, .handlerCalled])
    if fullMethod ∈ mie then
      finishProc fullMethod mie handler [.handlerCalled]
    else if opts.requireVolume then
      match oracle.getVolumeInfo volumeId emptyS with
      | .error e =>
          finishProc fullMethod mie (.error e) [.getVolumeInfo volumeId emptyS]
      | .ok none =>
          finishProc fullMethod mie (.ok (.error .volumeDoesNotExist))
            [.getVolumeInfo volumeId emptyS]
      | .ok (some _) => rest [.getVolumeInfo volumeId emptyS]
    else
      rest []

/-- The procedure `idempotencyInterceptor.nodeUnpublishVolume`: queries
`IsNodePublished` with a nil publication map and short-circuits when the
volume is not published. -/
def nodeUnpublishVolume (opts : IdempOpts) (acquired : Bool)
    (mie : List String) (fullMethod : String) (oracle : Oracle)
    (handler : Except String (Reply Unit))
    (volumeId : String) (targetPath : String) : ProcOut Unit :=
  if !acquired then
    ⟨.ok (.error .operationPending), mie, []⟩
  else
    let rest := fun (pre : List Event) =>
      match oracle.isNodePublished volumeId [] targetPath with
      | .error e =>
          finishProc fullMethod mie (.error e)
            (pre ++ [.isNodePublished volumeId targetPath])
      | .ok false =>
          finishProc fullMethod mie (.ok (.result ()))
            (pre ++ [.isNodePublished volumeId targetPath])
      | .ok true =>
          finishProc fullMethod mie handler
            (pre ++ [.isNodePublished volumeId targetPath, .handlerCalled])
    if fullMethod ∈ mie then
      finishProc fullMethod mie handler [.handlerCalled]
    else if opts.requireVolume then
      match oracle.getVolumeInfo volumeId emptyS with
      | .error e =>
          finishProc fullMethod mie (.error e) [.getVolumeInfo volumeId emptyS]
      | .ok none =>
          finishProc fullMethod mie (.ok (.error .volumeDoesNotExist))
            [.getVolumeInfo volumeId emptyS]
      | .ok (some _) => rest [.getVolumeInfo volumeId emptyS]
    else
      rest []

/-- How a `createVolume` call ends: a normal return of a reply with a
nil transport error, or a panic of the name-lock deferred hook. That
hook's body re-asserts `res.(*csi.CreateVolumeResponse)` (a single-form
type assertion) after its condition short-circuited on `resErr != nil`,
so on every exit carrying a non-nil transport error the response is a
nil interface and the assertion panics: nothing is returned and the name
record is not touched. The panic constructor records the transport error
that was about to be returned when the hook panicked. -/
inductive CreateResult where
  | returned (rep : Reply VolumeInfo)
  | panicked (e : String)
deriving Repr, DecidableEq

/-- Runs the name-lock deferred hook over the procedure's
`(res, resErr)` pair: a transport error makes the hook's body
re-assertion panic, a reply passes through and is returned. -/
def nameHookExit : Except String (Reply VolumeInfo) → CreateResult
  | .error e => .panicked e
  | .ok rep => .returned rep

/-- The name record's in-error set after the name hook ran: on a
transport-error exit the hook panics before reaching any insert or
delete, so the set is unchanged; on a reply it applies
`markOutcomeCreate`. -/
def nameHookMarks (fullMethod : String) (nameMie : List String) :
    Except String (Reply VolumeInfo) → List String
  | .error _ => nameMie
  | .ok rep => markOutcomeCreate fullMethod nameMie rep

/-- Whether a `createVolume` call returned normally with a reply carrying
an embedded `OPERATION_PENDING_FOR_VOLUME` error. -/
def isPendingCreate : CreateResult → Bool
  | .returned (.error .operationPending) => true
  | _ => false

/-- State of a `createVolume` call at exit: the outcome (return or name
hook panic), the name-lock record's in-error set, the single id-lock
record update performed (key and new in-error set), if any, and the
trace of oracle/handler calls. -/
structure CreateOut where
  result : CreateResult
  nameMethodInErr : List String
  idUpdate : Option (String × List String)
  events : List Event

/-- Exit state of `createVolume` while only the name lock's deferred
hook is registered. -/
def finishCreateName (fullMethod : String) (nameMie : List String)
    (r : Except String (Reply VolumeInfo)) (evs : List Event) : CreateOut :=
  ⟨nameHookExit r, nameHookMarks fullMethod nameMie r, none, evs⟩

/-- Exit state of `createVolume` after the id lock's deferred hook is
also registered. Deferred hooks run in LIFO order, so the id hook runs
first; it has no body re-assertion (its condition's short-circuit skips
the nil response) and applies the plain `markOutcome` — inserting even on
a transport error and without the pending-operation exception — before
the name hook runs (and panics on a transport error). -/
def finishCreateBoth (fullMethod : String) (nameMie : List String)
    (idKey : String) (idMie : List String)
    (r : Except String (Reply VolumeInfo)) (evs : List Event) : CreateOut :=
  ⟨nameHookExit r, nameHookMarks fullMethod nameMie r,
    some (idKey, markOutcome fullMethod idMie r), evs⟩

/-- The procedure `idempotencyInterceptor.createVolume`: outer lock keyed by the
request's volume name, inner lock keyed by the id the oracle resolves the
name to. `idAcquired` gives the try-lock outcome for each possible id
lock and `idMieOf` the in-error set of each id lock record. -/
def createVolume (_opts : IdempOpts) (nameAcquired : Bool)
    (nameMie : List String) (idAcquired : String → Bool)
    (idMieOf : String → List String)
    (fullMethod : String) (oracle : Oracle)
    (handler : Except String (Reply VolumeInfo))
    (name : String) : CreateOut :=
  if !nameAcquired then
    ⟨.returned (.error .operationPending), nameMie, none, []⟩
  else if fullMethod ∈ nameMie then
    finishCreateName fullMethod nameMie handler [.handlerCalled]
  else
    match oracle.getVolumeInfo emptyS name with
    | .error e =>
        finishCreateName fullMethod nameMie (.error e) [.getVolumeInfo emptyS name]
    | .ok none =>
        finishCreateName fullMethod nameMie handler
          [.getVolumeInfo emptyS name, .handlerCalled]
    | .ok (some volInfo) =>
        if !idAcquired volInfo.id then
          -- the id lock's deferred hook is not yet registered here
          finishCreateName fullMethod nameMie (.ok (.error .operationPending))
            [.getVolumeInfo emptyS name]
        else
          let idMie := idMieOf volInfo.id
          if fullMethod ∈ idMie then
            finishCreateBoth fullMethod nameMie volInfo.id idMie handler
              [.getVolumeInfo emptyS name, .handlerCalled]
          else
            match oracle.getVolumeInfo volInfo.id emptyS with
            | .error e =>
                finishCreateBoth fullMethod nameMie volInfo.id idMie (.error e)
                  [.getVolumeInfo emptyS name, .getVolumeInfo volInfo.id emptyS]
            | .ok none =>
                finishCreateBoth fullMethod nameMie volInfo.id idMie handler
                  [.getVolumeInfo emptyS name, .getVolumeInfo volInfo.id emptyS,
                    .handlerCalled]
            | .ok (some volInfo2) =>
                finishCreateBoth fullMethod nameMie volInfo.id idMie
                  (.ok (.result volInfo2))
                  [.getVolumeInfo emptyS name, .getVolumeInfo volInfo.id emptyS]

/-- Number of downstream-handler invocations recorded in a trace. -/
def countHandler : List Event → Nat
  | [] => 0
  | .handlerCalled :: rest => countHandler rest + 1
  | _ :: rest => countHandler rest

/-- Number of oracle `GetVolumeInfo` calls recorded in a trace. -/
def countGetVolumeInfo : List Event → Nat
  | [] => 0
  | .getVolumeInfo _ _ :: rest => countGetVolumeInfo rest + 1
  | _ :: rest => countGetVolumeInfo rest

/-! ## The mock CSI service (`service` package)

The mock service stores its volumes in an in-memory slice; each RPC below
is a pure state transformer on that slice. -/

/-- Modelled from the spec: the constant `gib100` is defined outside the
provided sources; per the source comment "If no capacity is specified
then use 100GiB" it is one hundred gibibytes. -/
def gib100 : Int := 100 * 1024 * 1024 * 1024

/-- Modelled from the spec: `service.newVolume` is defined outside the
provided sources; per the repository README's example (the fourth created
volume has id `"4"`), it builds a volume whose id is the decimal index
one past the current volume count, carrying the given name and the chosen
capacity in bytes. -/
def newVolume (vols : List VolumeInfo) (name : String)
    (capacity : Int) : VolumeInfo :=
  ⟨toString (vols.length + 1), name, capacity⟩

/-- The `csi.CapacityRange` message. -/
structure CapacityRange where
  requiredBytes : Int
  limitBytes : Int
deriving Repr, DecidableEq

/-- The RPC `service.CreateVolume` of the mock service: chooses the capacity from
the request's capacity range (default 100 GiB, `RequiredBytes` when
positive, overridden by `LimitBytes` when positive) and appends the new
volume to the service's volume slice. -/
def serviceCreateVolume (vols : List VolumeInfo) (name : String)
    (capacityRange : Option CapacityRange) :
    List VolumeInfo × Reply VolumeInfo :=
  let capacity : Int :=
    match capacityRange with
    | none => gib100
    | some cr =>
        let c1 := if cr.requiredBytes > 0 then cr.requiredBytes else gib100
        if cr.limitBytes > 0 then cr.limitBytes else c1
  let v := newVolume vols name capacity
  (vols ++ [v], .result v)

/-- Go's `strconv.ParseUint(s, 10, 32)`: succeeds on a nonempty all-digit
string whose value fits in 32 bits. -/
def parseUint32 (s : String) : Option Nat :=
  if s.isEmpty then none
  else if s.toList.all (fun c => c.isDigit) then
    let n := s.toList.foldl (fun acc c => acc * 10 + (c.toNat - 48)) 0
    if n < 2 ^ 32 then some n else none
  else none

/-- The RPC `service.ListVolumes` of the mock service: parses the starting token
(an empty token stands for zero), rejects tokens past the end, clamps
`maxEntries` to the remaining count, copies that many volumes starting at
the token index, and sets the next token when volumes remain. The Go
`uint32(len(vols))` conversion is the `% 2 ^ 32`. -/
def listVolumes (vols : List VolumeInfo) (maxEntries : Nat)
    (startingToken : String) : Reply (List VolumeInfo × String) :=
  let ulenVols := vols.length % 2 ^ 32
  match (if startingToken.isEmpty then some 0 else parseUint32 startingToken) with
  | none => .error (.general 0)
  | some st =>
      if st > ulenVols then .error (.general 0)
      else
        let rem := ulenVols - st
        let maxE := if maxEntries = 0 || maxEntries > rem then rem else maxEntries
        let entries := (vols.drop st).take maxE
        let nextToken := if st + maxE < ulenVols then toString (st + maxE) else emptyS
        .result (entries, nextToken)

/-! ## Helper lemmas -/

theorem finishProc_result {α : Type} (fm : String) (mie : List String)
    (r : Except String (Reply α)) (evs : List Event) :
    (finishProc fm mie r evs).result = r := rfl

theorem finishProc_events {α : Type} (fm : String) (mie : List String)
    (r : Except String (Reply α)) (evs : List Event) :
    (finishProc fm mie r evs).events = evs := rfl

theorem finishProc_methodInErr {α : Type} (fm : String) (mie : List String)
    (r : Except String (Reply α)) (evs : List Event) :
    (finishProc fm mie r evs).methodInErr = markOutcome fm mie r := rfl

theorem not_mem_removeMethod (fm : String) (mie : List String) :
    fm ∉ removeMethod fm mie := by
  simp [removeMethod]

/-- The five id-locked procedures all route every post-acquisition exit
through the deferred hook: the final in-error set is `markOutcome` of the
final outcome. Stated here for `controllerPublishVolume`. -/
theorem controllerPublishVolume_mark (opts : IdempOpts) (mie : List String)
    (fm : String) (o : Oracle) (h : Except String (Reply PubMap))
    (vid nid : String) :
    (controllerPublishVolume opts true mie fm o h vid nid).methodInErr =
      markOutcome fm mie (controllerPublishVolume opts true mie fm o h vid nid).result := by
  unfold controllerPublishVolume
  simp only [Bool.not_true, Bool.false_eq_true, if_false]
  repeat' split
  all_goals rfl

theorem controllerUnpublishVolume_mark (opts : IdempOpts) (mie : List String)
    (fm : String) (o : Oracle) (h : Except String (Reply Unit))
    (vid nid : String) :
    (controllerUnpublishVolume opts true mie fm o h vid nid).methodInErr =
      markOutcome fm mie
        (controllerUnpublishVolume opts true mie fm o h vid nid).result := by
  unfold controllerUnpublishVolume
  simp only [Bool.not_true, Bool.false_eq_true, if_false]
  repeat' split
  all_goals rfl

theorem deleteVolume_mark (opts : IdempOpts) (mie : List String)
    (fm : String) (o : Oracle) (h : Except String (Reply Unit))
    (vid : String) :
    (deleteVolume opts true mie fm o h vid).methodInErr =
      markOutcome fm mie (deleteVolume opts true mie fm o h vid).result := by
  unfold deleteVolume
  simp only [Bool.not_true, Bool.false_eq_true, if_false]
  repeat' split
  all_goals rfl

theorem nodePublishVolume_mark (opts : IdempOpts) (mie : List String)
    (fm : String) (o : Oracle) (h : Except String (Reply Unit))
    (vid tp : String) (pvi : PubMap) :
    (nodePublishVolume opts true mie fm o h vid pvi tp).methodInErr =
      markOutcome fm mie
        (nodePublishVolume opts true mie fm o h vid pvi tp).result := by
  unfold nodePublishVolume
  simp only [Bool.not_true, Bool.false_eq_true, if_false]
  repeat' split
  all_goals rfl

theorem nodeUnpublishVolume_mark (opts : IdempOpts) (mie : List String)
    (fm : String) (o : Oracle) (h : Except String (Reply Unit))
    (vid tp : String) :
    (nodeUnpublishVolume opts true mie fm o h vid tp).methodInErr =
      markOutcome fm mie (nodeUnpublishVolume opts true mie fm o h vid tp).result := by
  unfold nodeUnpublishVolume
  simp only [Bool.not_true, Bool.false_eq_true, if_false]
  repeat' split
  all_goals rfl

theorem finishCreateName_name_mark (fm : String) (nameMie : List String)
    (r : Except String (Reply VolumeInfo)) (evs : List Event) :
    (finishCreateName fm nameMie r evs).nameMethodInErr =
      match (finishCreateName fm nameMie r evs).result with
      | .returned rep => markOutcomeCreate fm nameMie rep
      | .panicked _ => nameMie := by
  cases r <;> rfl

theorem finishCreateBoth_name_mark (fm : String) (nameMie : List String)
    (idKey : String) (idMie : List String)
    (r : Except String (Reply VolumeInfo)) (evs : List Event) :
    (finishCreateBoth fm nameMie idKey idMie r evs).nameMethodInErr =
      match (finishCreateBoth fm nameMie idKey idMie r evs).result with
      | .returned rep => markOutcomeCreate fm nameMie rep
      | .panicked _ => nameMie := by
  cases r <;> rfl

/-- Every post-acquisition exit of `createVolume` routes through the name
lock's deferred hook: on a normal return the set is `markOutcomeCreate`
of the returned reply, and on a hook panic it is untouched. -/
theorem createVolume_name_mark (opts : IdempOpts) (nameMie : List String)
    (idAcq : String → Bool) (idMieOf : String → List String)
    (fm : String) (o : Oracle) (h : Except String (Reply VolumeInfo))
    (nm : String) :
    (createVolume opts true nameMie idAcq idMieOf fm o h nm).nameMethodInErr =
      match (createVolume opts true nameMie idAcq idMieOf fm o h nm).result with
      | .returned rep => markOutcomeCreate fm nameMie rep
      | .panicked _ => nameMie := by
  unfold createVolume
  simp only [Bool.not_true, Bool.false_eq_true, if_false]
  repeat'
    first
      | exact finishCreateName_name_mark _ _ _ _
      | exact finishCreateBoth_name_mark _ _ _ _ _ _
      | rfl
      | split

/-! ## Claim theorems -/

/-- C1: for each covered RPC procedure, when the try-lock acquisition of
the procedure's lock key times out, the procedure returns that RPC's
reply with an embedded `OPERATION_PENDING_FOR_VOLUME` error and a nil
transport-level error, with its in-error set untouched and with neither
the oracle nor the downstream handler invoked (empty event trace). -/
theorem trylock_timeout_returns_pending (opts : IdempOpts)
    (mie nameMie : List String) (fm : String) (o : Oracle)
    (hU : Except String (Reply Unit)) (hP : Except String (Reply PubMap))
    (hV : Except String (Reply VolumeInfo))
    (idAcq : String → Bool) (idMieOf : String → List String)
    (vid nid tp nm : String) (pvi : PubMap) :
    controllerPublishVolume opts false mie fm o hP vid nid =
      ⟨.ok (.error .operationPending), mie, []⟩ ∧
    controllerUnpublishVolume opts false mie fm o hU vid nid =
      ⟨.ok (.error .operationPending), mie, []⟩ ∧
    deleteVolume opts false mie fm o hU vid =
      ⟨.ok (.error .operationPending), mie, []⟩ ∧
    nodePublishVolume opts false mie fm o hU vid pvi tp =
      ⟨.ok (.error .operationPending), mie, []⟩ ∧
    nodeUnpublishVolume opts false mie fm o hU vid tp =
      ⟨.ok (.error .operationPending), mie, []⟩ ∧
    createVolume opts false nameMie idAcq idMieOf fm o hV nm =
      ⟨.returned (.error .operationPending), nameMie, none, []⟩ :=
  ⟨rfl, rfl, rfl, rfl, rfl, rfl⟩

/-- For each covered RPC procedure, when the held lock record's in-error
set contains the request's fully-qualified method name, the procedure
delegates directly to the downstream handler with no oracle query and no
require-volume precheck (the trace holds exactly the handler
invocation); the five id-locked procedures return the handler's result,
while `createVolume` feeds it through its name hook (which panics on a
transport-error handler outcome instead of returning it). -/
theorem error_bypass_delegates (opts : IdempOpts) (mie : List String)
    (fm : String) (hmem : fm ∈ mie) (o : Oracle)
    (hU : Except String (Reply Unit)) (hP : Except String (Reply PubMap))
    (hV : Except String (Reply VolumeInfo))
    (idAcq : String → Bool) (idMieOf : String → List String)
    (vid nid tp nm : String) (pvi : PubMap) :
    ((controllerPublishVolume opts true mie fm o hP vid nid).result = hP ∧
      (controllerPublishVolume opts true mie fm o hP vid nid).events =
        [.handlerCalled]) ∧
    ((controllerUnpublishVolume opts true mie fm o hU vid nid).result = hU ∧
      (controllerUnpublishVolume opts true mie fm o hU vid nid).events =
        [.handlerCalled]) ∧
    ((deleteVolume opts true mie fm o hU vid).result = hU ∧
      (deleteVolume opts true mie fm o hU vid).events = [.handlerCalled]) ∧
    ((nodePublishVolume opts true mie fm o hU vid pvi tp).result = hU ∧
      (nodePublishVolume opts true mie fm o hU vid pvi tp).events =
        [.handlerCalled]) ∧
    ((nodeUnpublishVolume opts true mie fm o hU vid tp).result = hU ∧
      (nodeUnpublishVolume opts true mie fm o hU vid tp).events =
        [.handlerCalled]) ∧
    ((createVolume opts true mie idAcq idMieOf fm o hV nm).result =
        nameHookExit hV ∧
      (createVolume opts true mie idAcq idMieOf fm o hV nm).events =
        [.handlerCalled]) := by
  refine ⟨⟨?_, ?_⟩, ⟨?_, ?_⟩, ⟨?_, ?_⟩, ⟨?_, ?_⟩, ⟨?_, ?_⟩, ⟨?_, ?_⟩⟩ <;>
    simp [controllerPublishVolume, controllerUnpublishVolume, deleteVolume,
      nodePublishVolume, nodeUnpublishVolume, createVolume,
      finishProc, finishCreateName, hmem]

/-- For each of the five id-locked procedures, on exit while the lock is
held: a non-nil transport-level error or an embedded-error reply inserts
the fully-qualified method name into the lock record's in-error set, and
a successful outcome removes the method's entry. (`createVolume`'s name
record obeys `createVolume_name_mark` instead: the pending-operation
exception on embedded replies, and a hook panic — no insert — on
transport-error exits.) -/
theorem outcome_updates_method_in_error (opts : IdempOpts)
    (mie : List String) (fm : String) (o : Oracle)
    (hU : Except String (Reply Unit)) (hP : Except String (Reply PubMap))
    (vid nid tp : String) (pvi : PubMap) :
    ((controllerPublishVolume opts true mie fm o hP vid nid).methodInErr =
      if resultHasErr (controllerPublishVolume opts true mie fm o hP vid nid).result
      then insertMethod fm mie else removeMethod fm mie) ∧
    ((controllerUnpublishVolume opts true mie fm o hU vid nid).methodInErr =
      if resultHasErr (controllerUnpublishVolume opts true mie fm o hU vid nid).result
      then insertMethod fm mie else removeMethod fm mie) ∧
    ((deleteVolume opts true mie fm o hU vid).methodInErr =
      if resultHasErr (deleteVolume opts true mie fm o hU vid).result
      then insertMethod fm mie else removeMethod fm mie) ∧
    ((nodePublishVolume opts true mie fm o hU vid pvi tp).methodInErr =
      if resultHasErr (nodePublishVolume opts true mie fm o hU vid pvi tp).result
      then insertMethod fm mie else removeMethod fm mie) ∧
    ((nodeUnpublishVolume opts true mie fm o hU vid tp).methodInErr =
      if resultHasErr (nodeUnpublishVolume opts true mie fm o hU vid tp).result
      then insertMethod fm mie else removeMethod fm mie) := by
  refine ⟨?_, ?_, ?_, ?_, ?_⟩
  · rw [controllerPublishVolume_mark]; rfl
  · rw [controllerUnpublishVolume_mark]; rfl
  · rw [deleteVolume_mark]; rfl
  · rw [nodePublishVolume_mark]; rfl
  · rw [nodeUnpublishVolume_mark]; rfl

/-- The decision tree of `createVolume` once the name lock is acquired
and the name is not marked in-error: a null name lookup delegates;
otherwise the id lock is acquired (pending reply on timeout),
error-bypass is re-checked on the id lock, the oracle is re-queried by
id, a now-null second lookup delegates, and a non-null second lookup
returns a success reply carrying that volume info without invoking the
downstream handler. Delegation outcomes pass through the name hook
(`nameHookExit`): the handler's reply is returned, a transport-error
handler outcome panics there. -/
theorem createVolume_decision_tree (opts : IdempOpts)
    (nameMie : List String) (idAcq : String → Bool)
    (idMieOf : String → List String) (fm : String) (o : Oracle)
    (h : Except String (Reply VolumeInfo)) (nm : String)
    (hnm : fm ∉ nameMie) :
    (o.getVolumeInfo emptyS nm = .ok none →
      (createVolume opts true nameMie idAcq idMieOf fm o h nm).result =
        nameHookExit h ∧
      (createVolume opts true nameMie idAcq idMieOf fm o h nm).events =
        [.getVolumeInfo emptyS nm, .handlerCalled]) ∧
    (∀ vi, o.getVolumeInfo emptyS nm = .ok (some vi) →
      idAcq vi.id = false →
      (createVolume opts true nameMie idAcq idMieOf fm o h nm).result =
        .returned (.error .operationPending) ∧
      (createVolume opts true nameMie idAcq idMieOf fm o h nm).events =
        [.getVolumeInfo emptyS nm]) ∧
    (∀ vi, o.getVolumeInfo emptyS nm = .ok (some vi) →
      idAcq vi.id = true → fm ∈ idMieOf vi.id →
      (createVolume opts true nameMie idAcq idMieOf fm o h nm).result =
        nameHookExit h ∧
      (createVolume opts true nameMie idAcq idMieOf fm o h nm).events =
        [.getVolumeInfo emptyS nm, .handlerCalled]) ∧
    (∀ vi, o.getVolumeInfo emptyS nm = .ok (some vi) →
      idAcq vi.id = true → fm ∉ idMieOf vi.id →
      o.getVolumeInfo vi.id emptyS = .ok none →
      (createVolume opts true nameMie idAcq idMieOf fm o h nm).result =
        nameHookExit h ∧
      (createVolume opts true nameMie idAcq idMieOf fm o h nm).events =
        [.getVolumeInfo emptyS nm, .getVolumeInfo vi.id emptyS, .handlerCalled]) ∧
    (∀ vi vi2, o.getVolumeInfo emptyS nm = .ok (some vi) →
      idAcq vi.id = true → fm ∉ idMieOf vi.id →
      o.getVolumeInfo vi.id emptyS = .ok (some vi2) →
      (createVolume opts true nameMie idAcq idMieOf fm o h nm).result =
        .returned (.result vi2) ∧
      (createVolume opts true nameMie idAcq idMieOf fm o h nm).events =
        [.getVolumeInfo emptyS nm, .getVolumeInfo vi.id emptyS]) := by
  refine ⟨?_, ?_, ?_, ?_, ?_⟩
  · intro hg
    simp [createVolume, finishCreateName, hnm, hg]
  · intro vi hg hid
    simp [createVolume, finishCreateName, nameHookExit, hnm, hg, hid]
  · intro vi hg hid hidmem
    simp [createVolume, finishCreateBoth, hnm, hg, hid, hidmem]
  · intro vi hg hid hidmem hg2
    simp [createVolume, finishCreateBoth, hnm, hg, hid, hidmem, hg2]
  · intro vi vi2 hg hid hidmem hg2
    simp [createVolume, finishCreateBoth, nameHookExit, hnm, hg, hid, hidmem,
      hg2]

/-- C7: for each covered RPC whose semantics presume an existing volume,
with `require_volume` set, a lock acquired, and the method not marked
in-error, a null oracle lookup of the request's volume id yields that
RPC's reply with an embedded `VOLUME_DOES_NOT_EXIST` error, a nil
transport-level error, and no downstream-handler invocation. -/
theorem require_volume_precheck (mie : List String) (fm : String)
    (o : Oracle) (hU : Except String (Reply Unit))
    (hP : Except String (Reply PubMap)) (vid nid tp : String) (pvi : PubMap)
    (hmem : fm ∉ mie) (hg : o.getVolumeInfo vid emptyS = .ok none) :
    ((controllerPublishVolume ⟨true⟩ true mie fm o hP vid nid).result =
        .ok (.error .volumeDoesNotExist) ∧
      countHandler (controllerPublishVolume ⟨true⟩ true mie fm o hP vid nid).events = 0) ∧
    ((controllerUnpublishVolume ⟨true⟩ true mie fm o hU vid nid).result =
        .ok (.error .volumeDoesNotExist) ∧
      countHandler (controllerUnpublishVolume ⟨true⟩ true mie fm o hU vid nid).events = 0) ∧
    ((deleteVolume ⟨true⟩ true mie fm o hU vid).result =
        .ok (.error .volumeDoesNotExist) ∧
      countHandler (deleteVolume ⟨true⟩ true mie fm o hU vid).events = 0) ∧
    ((nodePublishVolume ⟨true⟩ true mie fm o hU vid pvi tp).result =
        .ok (.error .volumeDoesNotExist) ∧
      countHandler (nodePublishVolume ⟨true⟩ true mie fm o hU vid pvi tp).events = 0) ∧
    ((nodeUnpublishVolume ⟨true⟩ true mie fm o hU vid tp).result =
        .ok (.error .volumeDoesNotExist) ∧
      countHandler (nodeUnpublishVolume ⟨true⟩ true mie fm o hU vid tp).events = 0) := by
  refine ⟨⟨?_, ?_⟩, ⟨?_, ?_⟩, ⟨?_, ?_⟩, ⟨?_, ?_⟩, ⟨?_, ?_⟩⟩ <;>
    simp [controllerPublishVolume, controllerUnpublishVolume, deleteVolume,
      nodePublishVolume, nodeUnpublishVolume, finishProc, countHandler,
      hmem, hg]

/-! ## Concrete instances used by counterexamples and witnesses -/

/-- A fully-qualified method name. -/
def fmW : String := "/csi.Controller/CreateVolume"

/-- A fully-qualified method name for delete calls. -/
def fmDelW : String := "/csi.Controller/DeleteVolume"

/-- A volume id. -/
def vidW : String := "v1"

/-- A node id. -/
def nidW : String := "node1"

/-- A volume name. -/
def nmW : String := "alpha"

/-- A concrete volume. -/
def volW : VolumeInfo := VolumeInfo.mk vidW nmW 0

/-- A concrete controller publication map. -/
def pubW : PubMap := [(nmW, vidW)]

/-- An oracle that resolves the name lookup to `volW` and reports the id
lookup as absent (the volume vanished during the lock handoff). -/
def oracleVanish : Oracle where
  getVolumeInfo := fun id _ => if id.isEmpty then .ok (some volW) else .ok none
  isControllerPublished := fun _ _ => .ok none
  isNodePublished := fun _ _ _ => .ok false

/-- An oracle for which every volume exists and is published. -/
def oracleExists : Oracle where
  getVolumeInfo := fun _ _ => .ok (some volW)
  isControllerPublished := fun _ _ => .ok (some pubW)
  isNodePublished := fun _ _ _ => .ok true

/-- C5 counterexample: a CreateVolume call that returns an embedded
`OPERATION_PENDING_FOR_VOLUME` reply produced by the downstream handler
(reached after the id lock was acquired) inserts the method into the
id-keyed lock record's in-error set, which was empty before the call. -/
theorem create_pending_marks_id_record :
    (createVolume ⟨false⟩ true [] (fun _ => true) (fun _ => []) fmW
        oracleVanish (.ok (.error .operationPending)) nmW).result =
      .returned (.error .operationPending) ∧
    (createVolume ⟨false⟩ true [] (fun _ => true) (fun _ => []) fmW
        oracleVanish (.ok (.error .operationPending)) nmW).idUpdate =
      some (vidW, [fmW]) := by
  exact ⟨rfl, rfl⟩

/-- If the name hook's outcome over a handler result is a returned
pending reply, the handler result itself was a pending reply. -/
theorem pending_exit_of_handler {h : Except String (Reply VolumeInfo)}
    (hres : isPendingCreate (nameHookExit h) = true) :
    isPendingResult h = true := by
  cases h with
  | error e => simp [nameHookExit, isPendingCreate] at hres
  | ok rep =>
      cases rep with
      | result v => simp [nameHookExit, isPendingCreate] at hres
      | error c => cases c <;>
          simp_all [nameHookExit, isPendingCreate, isPendingResult]

/-- C5 (amended): a CreateVolume call whose outcome is an embedded
`OPERATION_PENDING_FOR_VOLUME` reply leaves the name-keyed lock record's
in-error set unchanged; and when that pending reply was not produced by
the downstream handler (i.e. it came from one of the interceptor's own
try-lock timeouts), no id-keyed lock record is touched either. A pending
reply returned by the downstream handler while the id lock is held does
mark the id-keyed record. -/
theorem create_pending_no_poison (opts : IdempOpts) (na : Bool)
    (nameMie : List String) (idAcq : String → Bool)
    (idMieOf : String → List String) (fm : String) (o : Oracle)
    (h : Except String (Reply VolumeInfo)) (nm : String)
    (hres : isPendingCreate
      (createVolume opts na nameMie idAcq idMieOf fm o h nm).result = true) :
    (createVolume opts na nameMie idAcq idMieOf fm o h nm).nameMethodInErr =
      nameMie ∧
    (isPendingResult h = false →
      (createVolume opts na nameMie idAcq idMieOf fm o h nm).idUpdate = none) := by
  cases na with
  | false => exact ⟨rfl, fun _ => rfl⟩
  | true =>
      constructor
      · rw [createVolume_name_mark]
        revert hres
        generalize (createVolume opts true nameMie idAcq idMieOf fm o h nm).result = r
        intro hres
        cases r with
        | panicked e => rfl
        | returned rep =>
            cases rep with
            | result v => exact absurd hres (by simp [isPendingCreate])
            | error c =>
                cases c with
                | operationPending => rfl
                | volumeDoesNotExist => exact absurd hres (by simp [isPendingCreate])
                | general n => exact absurd hres (by simp [isPendingCreate])
      · intro hh
        revert hres
        unfold createVolume
        simp only [Bool.not_true, Bool.false_eq_true, if_false]
        repeat' split
        all_goals intro hres
        all_goals
          first
            | rfl
            | (have hph := pending_exit_of_handler hres; simp_all)
            | simp_all [finishCreateName, finishCreateBoth, isPendingCreate,
                nameHookExit]

/-- C5 (amended) witness: a name-lock timeout returns the pending reply
and leaves every in-error set untouched. -/
theorem create_pending_no_poison_witness :
    (createVolume ⟨false⟩ false [] (fun _ => true) (fun _ => []) fmW
        oracleVanish (.ok (.result volW)) nmW).nameMethodInErr = [] ∧
    (isPendingResult (.ok (.result volW) : Except String (Reply VolumeInfo)) = false →
      (createVolume ⟨false⟩ false [] (fun _ => true) (fun _ => []) fmW
        oracleVanish (.ok (.result volW)) nmW).idUpdate = none) :=
  create_pending_no_poison ⟨false⟩ false [] (fun _ => true) (fun _ => [])
    fmW oracleVanish (.ok (.result volW)) nmW rfl

/-- A transport-level error string. -/
def errW : String := "io timeout"

/-- An oracle for which no volume exists. -/
def oracleAbsent : Oracle where
  getVolumeInfo := fun _ _ => .ok none
  isControllerPublished := fun _ _ => .ok none
  isNodePublished := fun _ _ _ => .ok false

/-- An oracle whose every query fails with a transport-level error. -/
def oracleErr : Oracle where
  getVolumeInfo := fun _ _ => .error errW
  isControllerPublished := fun _ _ => .error errW
  isNodePublished := fun _ _ _ => .error errW

/-- C2 divergence, evaluated on the model at the failing input: a
CreateVolume whose method is marked in-error on the name record
delegates (the trace holds only the handler invocation, no oracle
query), but when the downstream handler returns a non-nil transport
error the name-lock deferred hook panics on its nil-response
re-assertion instead of returning the handler's result. -/
theorem createVolume_bypass_handler_error_panics :
    (createVolume ⟨false⟩ true [fmW] (fun _ => true) (fun _ => []) fmW
        oracleVanish (.error errW) nmW).result = .panicked errW ∧
    (createVolume ⟨false⟩ true [fmW] (fun _ => true) (fun _ => []) fmW
        oracleVanish (.error errW) nmW).events = [.handlerCalled] ∧
    (createVolume ⟨false⟩ true [fmW] (fun _ => true) (fun _ => []) fmW
        oracleVanish (.error errW) nmW).nameMethodInErr = [fmW] :=
  ⟨rfl, rfl, rfl⟩

/-- C3 divergence, evaluated on the model at the failing input: in the
decision tree's first branch (null name lookup) the call delegates, but
when the downstream handler returns a non-nil transport error the
name-lock deferred hook panics instead of returning the handler's
result. -/
theorem createVolume_delegation_error_panics :
    (createVolume ⟨false⟩ true [] (fun _ => true) (fun _ => []) fmW
        oracleAbsent (.error errW) nmW).result = .panicked errW ∧
    (createVolume ⟨false⟩ true [] (fun _ => true) (fun _ => []) fmW
        oracleAbsent (.error errW) nmW).events =
      [.getVolumeInfo emptyS nmW, .handlerCalled] :=
  ⟨rfl, rfl⟩

/-- C4 divergence, evaluated on the model at the failing input: on a
CreateVolume exit carrying a non-nil transport-level error (here the
oracle's name lookup fails), the name record does not gain the method:
the name-lock hook's body re-assertion panics before any insert runs. -/
theorem createVolume_transport_error_no_mark :
    (createVolume ⟨false⟩ true [] (fun _ => true) (fun _ => []) fmW
        oracleErr (.ok (.result volW)) nmW).result = .panicked errW ∧
    (createVolume ⟨false⟩ true [] (fun _ => true) (fun _ => []) fmW
        oracleErr (.ok (.result volW)) nmW).nameMethodInErr = [] ∧
    (createVolume ⟨false⟩ true [] (fun _ => true) (fun _ => []) fmW
        oracleErr (.ok (.result volW)) nmW).events =
      [.getVolumeInfo emptyS nmW] :=
  ⟨rfl, rfl, rfl⟩

/-- C6 counterexample: with `require_volume` set and the volume present,
a DeleteVolume that reaches past the error-bypass check queries the
oracle's `GetVolumeInfo` exactly once, not twice: the existence flag set
by the precheck suppresses the second lookup. -/
theorem deleteVolume_one_query_when_required :
    countGetVolumeInfo
      ((deleteVolume ⟨true⟩ true [] fmDelW oracleExists
        (.ok (.result ())) vidW).events) = 1 := by
  exact rfl

/-- C6 (amended): a DeleteVolume call that reaches past the error-bypass
check queries the oracle's `GetVolumeInfo` exactly once, whether
`require_volume` is true or false: the single call serves both the
existence precheck and the idempotency decision. -/
theorem deleteVolume_oracle_called_once (opts : IdempOpts)
    (mie : List String) (fm : String) (o : Oracle)
    (h : Except String (Reply Unit)) (vid : String) (hmem : fm ∉ mie) :
    countGetVolumeInfo ((deleteVolume opts true mie fm o h vid).events) = 1 := by
  unfold deleteVolume
  simp only [Bool.not_true, Bool.false_eq_true, if_false]
  repeat' split
  all_goals simp_all [finishProc, countGetVolumeInfo]

/-- C6 (amended) witness: concrete delete calls with `require_volume`
true and false each record a single oracle lookup. -/
theorem deleteVolume_oracle_called_once_witness :
    countGetVolumeInfo
      ((deleteVolume ⟨true⟩ true [] fmDelW oracleVanish
        (.ok (.result ())) vidW).events) = 1 ∧
    countGetVolumeInfo
      ((deleteVolume ⟨false⟩ true [] fmDelW oracleVanish
        (.ok (.result ())) vidW).events) = 1 :=
  ⟨deleteVolume_oracle_called_once ⟨true⟩ [] fmDelW oracleVanish
      (.ok (.result ())) vidW (by simp),
    deleteVolume_oracle_called_once ⟨false⟩ [] fmDelW oracleVanish
      (.ok (.result ())) vidW (by simp)⟩

/-- A node-publish target path. -/
def tpW : String := "/mnt/target"

/-- A ControllerPublishVolume call whose method is marked in-error
returns exactly the downstream handler's reply (instance of the bypass
theorem). -/
theorem error_bypass_delegates_witness :
    (controllerPublishVolume ⟨true⟩ true [fmW] fmW oracleVanish
        (.ok (.result pubW)) vidW nidW).result = .ok (.result pubW) ∧
    (controllerPublishVolume ⟨true⟩ true [fmW] fmW oracleVanish
        (.ok (.result pubW)) vidW nidW).events = [.handlerCalled] :=
  (error_bypass_delegates ⟨true⟩ [fmW] fmW (by simp) oracleVanish
    (.ok (.result ())) (.ok (.result pubW)) (.ok (.result volW))
    (fun _ => true) (fun _ => []) vidW nidW tpW nmW pubW).1

/-- A CreateVolume for an existing, stable volume short-circuits with
that volume's info and no handler invocation (instance of the decision
tree's last branch). -/
theorem createVolume_decision_tree_witness :
    (createVolume ⟨false⟩ true [] (fun _ => true) (fun _ => []) fmW
        oracleExists (.ok (.result volW)) nmW).result =
      .returned (.result volW) ∧
    (createVolume ⟨false⟩ true [] (fun _ => true) (fun _ => []) fmW
        oracleExists (.ok (.result volW)) nmW).events =
      [.getVolumeInfo emptyS nmW, .getVolumeInfo vidW emptyS] :=
  (createVolume_decision_tree ⟨false⟩ [] (fun _ => true) (fun _ => [])
    fmW oracleExists (.ok (.result volW)) nmW (by simp)).2.2.2.2
    volW volW rfl rfl (by simp) rfl

/-- C7 witness: with `require_volume` set and the volume absent, a
DeleteVolume yields the embedded `VOLUME_DOES_NOT_EXIST` reply and never
reaches the downstream handler. -/
theorem require_volume_precheck_witness :
    (deleteVolume ⟨true⟩ true [] fmDelW oracleVanish
        (.ok (.result ())) vidW).result = .ok (.error .volumeDoesNotExist) ∧
    countHandler (deleteVolume ⟨true⟩ true [] fmDelW oracleVanish
        (.ok (.result ())) vidW).events = 0 :=
  (require_volume_precheck [] fmDelW oracleVanish (.ok (.result ()))
    (.ok (.result pubW)) vidW nidW tpW pubW (by simp) rfl).2.2.1

/-- A `controllerPublishVolume` call invokes the downstream handler at
most once. -/
theorem controllerPublishVolume_handler_le_one (opts : IdempOpts)
    (acq : Bool) (mie : List String) (fm : String) (o : Oracle)
    (h : Except String (Reply PubMap)) (vid nid : String) :
    countHandler (controllerPublishVolume opts acq mie fm o h vid nid).events ≤ 1 := by
  unfold controllerPublishVolume
  repeat' split
  all_goals simp [finishProc, countHandler]

/-- When the method is not marked in-error, the volume exists, and the
oracle reports it published with map `m`, a `controllerPublishVolume`
call short-circuits with `m` and never invokes the handler. -/
theorem controllerPublishVolume_shortcircuit (opts : IdempOpts)
    (mie : List String) (fm : String) (o : Oracle)
    (h : Except String (Reply PubMap)) (vid nid : String)
    (m : PubMap) (vi : VolumeInfo) (hnot : fm ∉ mie)
    (hg : o.getVolumeInfo vid emptyS = .ok (some vi))
    (hp : o.isControllerPublished vid nid = .ok (some m)) :
    (controllerPublishVolume opts true mie fm o h vid nid).result =
      .ok (.result m) ∧
    countHandler (controllerPublishVolume opts true mie fm o h vid nid).events = 0 := by
  obtain ⟨rv⟩ := opts
  cases rv <;> simp [controllerPublishVolume, finishProc, countHandler, hnot, hg, hp]

/-- C8: two successive ControllerPublishVolume calls with identical
arguments, where the first succeeds with publish map `m` and the second
runs against an oracle reflecting the state the first produced (the
volume exists and is published with `m`), yield replies carrying equal
publish maps, and the downstream handler is invoked at most once across
the two calls. -/
theorem controllerPublishVolume_idempotent (opts : IdempOpts)
    (mie1 : List String) (fm vid nid : String) (o1 o2 : Oracle)
    (h1 h2 : Except String (Reply PubMap)) (m : PubMap) (vi : VolumeInfo)
    (hsucc : (controllerPublishVolume opts true mie1 fm o1 h1 vid nid).result =
      .ok (.result m))
    (hg : o2.getVolumeInfo vid emptyS = .ok (some vi))
    (hp : o2.isControllerPublished vid nid = .ok (some m)) :
    (controllerPublishVolume opts true
        (controllerPublishVolume opts true mie1 fm o1 h1 vid nid).methodInErr
        fm o2 h2 vid nid).result = .ok (.result m) ∧
    countHandler (controllerPublishVolume opts true mie1 fm o1 h1 vid nid).events +
      countHandler (controllerPublishVolume opts true
        (controllerPublishVolume opts true mie1 fm o1 h1 vid nid).methodInErr
        fm o2 h2 vid nid).events ≤ 1 := by
  have hmie2 : (controllerPublishVolume opts true mie1 fm o1 h1 vid nid).methodInErr
      = removeMethod fm mie1 := by
    rw [controllerPublishVolume_mark, hsucc]; rfl
  have hnot : fm ∉ (controllerPublishVolume opts true mie1 fm o1 h1 vid nid).methodInErr := by
    rw [hmie2]; exact not_mem_removeMethod fm mie1
  have hsecond := controllerPublishVolume_shortcircuit opts
    (controllerPublishVolume opts true mie1 fm o1 h1 vid nid).methodInErr
    fm o2 h2 vid nid m vi hnot hg hp
  refine ⟨hsecond.1, ?_⟩
  rw [hsecond.2]
  have := controllerPublishVolume_handler_le_one opts true mie1 fm o1 h1 vid nid
  omega

/-- C8 witness: against an oracle that reports the volume published with
`pubW`, both calls short-circuit with `pubW` and never invoke the
downstream handler. -/
theorem controllerPublishVolume_idempotent_witness :
    (controllerPublishVolume ⟨false⟩ true
        (controllerPublishVolume ⟨false⟩ true [] fmW oracleExists
          (.ok (.result pubW)) vidW nidW).methodInErr
        fmW oracleExists (.ok (.result pubW)) vidW nidW).result =
      .ok (.result pubW) ∧
    countHandler (controllerPublishVolume ⟨false⟩ true [] fmW oracleExists
        (.ok (.result pubW)) vidW nidW).events +
      countHandler (controllerPublishVolume ⟨false⟩ true
        (controllerPublishVolume ⟨false⟩ true [] fmW oracleExists
          (.ok (.result pubW)) vidW nidW).methodInErr
        fmW oracleExists (.ok (.result pubW)) vidW nidW).events ≤ 1 :=
  controllerPublishVolume_idempotent ⟨false⟩ [] fmW vidW nidW
    oracleExists oracleExists (.ok (.result pubW)) (.ok (.result pubW))
    pubW volW rfl rfl rfl

/-! ## The mock service claims -/

theorem toDigitsCore_length_le (b : Nat) :
    ∀ (fuel n : Nat) (ds : List Char),
      ds.length ≤ (Nat.toDigitsCore b fuel n ds).length := by
  intro fuel
  induction fuel with
  | zero => intro n ds; simp [Nat.toDigitsCore]
  | succ f ih =>
      intro n ds
      simp only [Nat.toDigitsCore]
      split
      · simp
      · exact le_trans (Nat.le_succ _) (ih (n / b) (Nat.digitChar (n % b) :: ds))

theorem toDigits_length_pos (n : Nat) : 0 < (Nat.toDigits 10 n).length := by
  show 0 < (Nat.toDigitsCore 10 (n + 1) n []).length
  simp only [Nat.toDigitsCore]
  split
  · simp
  · have := toDigitsCore_length_le 10 n (n / 10) [Nat.digitChar (n % 10)]
    simp at this
    omega

/-- The decimal representation of a natural number is never empty. -/
theorem natToString_not_isEmpty (n : Nat) : (toString n).isEmpty = false := by
  have hlen : 0 < (toString n).length := by
    show 0 < (Nat.repr n).length
    unfold Nat.repr
    rw [List.length_asString]
    exact toDigits_length_pos n
  cases hb : (toString n).isEmpty
  · rfl
  · exfalso
    have hempty : toString n = "" := (String.isEmpty_iff _).mp hb
    rw [hempty] at hlen
    simp at hlen

/-- C9: the mock service's CreateVolume chooses 100 GiB when no capacity
range is given or both of its fields are zero, `RequiredBytes` when only
it is positive, and `LimitBytes` whenever it is positive (even if
`RequiredBytes` is also positive), and appends the created volume to the
service's volume slice. -/
theorem mock_createVolume_capacity (vols : List VolumeInfo) (nm : String)
    (cr : Option CapacityRange) :
    ∃ v : VolumeInfo,
      (serviceCreateVolume vols nm cr).2 = .result v ∧
      (serviceCreateVolume vols nm cr).1 = vols ++ [v] ∧
      ((cr = none ∨ cr = some ⟨0, 0⟩) →
        v.capacityBytes = 100 * 1024 * 1024 * 1024) ∧
      (∀ r l : Int, cr = some ⟨r, l⟩ → 0 < r → l = 0 →
        v.capacityBytes = r) ∧
      (∀ r l : Int, cr = some ⟨r, l⟩ → 0 < l → v.capacityBytes = l) := by
  refine ⟨_, rfl, rfl, ?_, ?_, ?_⟩
  · rintro (rfl | rfl) <;> rfl
  · rintro r l rfl hr hl
    simp [serviceCreateVolume, newVolume, hl, hr.le, not_lt.mpr (le_refl (0 : Int))]
    simp [not_lt.mpr hr.le, hr]
  · rintro r l rfl hl
    simp [serviceCreateVolume, newVolume, hl]

/-- C9 witness: a concrete request with both capacity fields positive
gets the limit as capacity and is appended to the volume slice. -/
theorem mock_createVolume_capacity_witness :
    ∃ v : VolumeInfo,
      (serviceCreateVolume [] nmW (some ⟨5, 7⟩)).2 = .result v ∧
      (serviceCreateVolume [] nmW (some ⟨5, 7⟩)).1 = [] ++ [v] ∧
      ((some ⟨5, 7⟩ = (none : Option CapacityRange) ∨
          (some ⟨5, 7⟩ : Option CapacityRange) = some ⟨0, 0⟩) →
        v.capacityBytes = 100 * 1024 * 1024 * 1024) ∧
      (∀ r l : Int, (some ⟨5, 7⟩ : Option CapacityRange) = some ⟨r, l⟩ →
        0 < r → l = 0 → v.capacityBytes = r) ∧
      (∀ r l : Int, (some ⟨5, 7⟩ : Option CapacityRange) = some ⟨r, l⟩ →
        0 < l → v.capacityBytes = l) :=
  mock_createVolume_capacity [] nmW (some ⟨5, 7⟩)

/-- A successful parse implies the token string was nonempty. -/
theorem parseUint32_nonempty {s : String} {t : Nat}
    (h : parseUint32 s = some t) : s.isEmpty = false := by
  by_cases hs : s.isEmpty <;> simp_all [parseUint32]

/-- C10 (amended): for a service with fewer than `2 ^ 32` volumes, the
mock ListVolumes with a parseable starting token `t ≤ n` returns the
volumes at indices `t, t+1, ...` — all the remaining ones when
`MaxEntries` is zero and `min MaxEntries (n - t)` of them otherwise —
with a next token that is nonempty exactly when volumes remain past the
returned page; a token past the end or an unparseable *nonempty* token
yields an embedded-error reply with a nil transport error; and an empty
token is treated as token zero (a normal page from the start), not as a
parse failure. -/
theorem mock_listVolumes_pagination (vols : List VolumeInfo)
    (maxEntries : Nat) (tok : String) (hlen : vols.length < 2 ^ 32) :
    (∀ t, parseUint32 tok = some t → t ≤ vols.length →
      ∃ entries nextToken,
        listVolumes vols maxEntries tok = .result (entries, nextToken) ∧
        entries.length =
          (if maxEntries = 0 then vols.length - t
           else min maxEntries (vols.length - t)) ∧
        entries = (vols.drop t).take entries.length ∧
        (nextToken.isEmpty = false ↔ t + entries.length < vols.length)) ∧
    (∀ t, parseUint32 tok = some t → vols.length < t →
      listVolumes vols maxEntries tok = .error (.general 0)) ∧
    (tok.isEmpty = false → parseUint32 tok = none →
      listVolumes vols maxEntries tok = .error (.general 0)) ∧
    (tok.isEmpty = true →
      ∃ entries nextToken,
        listVolumes vols maxEntries tok = .result (entries, nextToken) ∧
        entries.length =
          (if maxEntries = 0 then vols.length
           else min maxEntries vols.length) ∧
        entries = vols.take entries.length ∧
        (nextToken.isEmpty = false ↔ entries.length < vols.length)) := by
  have hmod : vols.length % 2 ^ 32 = vols.length := Nat.mod_eq_of_lt hlen
  refine ⟨?_, ?_, ?_, ?_⟩
  · intro t hparse ht
    have hne := parseUint32_nonempty hparse
    unfold listVolumes
    rw [hne]
    simp only [Bool.false_eq_true, if_false, hparse, hmod]
    rw [if_neg (by omega : ¬ (t > vols.length))]
    set maxE := if maxEntries = 0 || maxEntries > vols.length - t
      then vols.length - t else maxEntries with hmax
    have hmaxle : maxE ≤ vols.length - t := by
      rw [hmax]; split
      · exact le_refl _
      · rename_i hcond
        simp only [Bool.or_eq_true, decide_eq_true_eq, not_or] at hcond
        omega
    have hlenEq : ((vols.drop t).take maxE).length = maxE := by
      simp [List.length_take, List.length_drop]
      omega
    refine ⟨_, _, rfl, ?_, ?_, ?_⟩
    · rw [hlenEq, hmax]
      by_cases h0 : maxEntries = 0 <;>
        by_cases hgt : maxEntries > vols.length - t <;>
          simp [h0, hgt] <;> omega
    · rw [hlenEq]
    · rw [hlenEq]
      by_cases hc : t + maxE < vols.length
      · simp [hc, natToString_not_isEmpty]
      · simp only [if_neg hc]
        simp [hc, emptyS]
        decide
  · intro t hparse ht
    have hne := parseUint32_nonempty hparse
    unfold listVolumes
    rw [hne]
    simp only [Bool.false_eq_true, if_false, hparse, hmod]
    rw [if_pos (by omega : t > vols.length)]
  · intro hne hparse
    unfold listVolumes
    rw [hne]
    simp only [Bool.false_eq_true, if_false, hparse]
  · intro hemp
    have hm : (if tok.isEmpty then (some 0 : Option Nat) else parseUint32 tok)
        = some 0 := by rw [hemp]; simp
    unfold listVolumes
    rw [hm]
    simp only [hmod, Nat.sub_zero, List.drop_zero, Nat.zero_add]
    rw [if_neg (by omega : ¬ ((0 : Nat) > vols.length))]
    set maxE := if maxEntries = 0 || maxEntries > vols.length
      then vols.length else maxEntries with hmax
    have hmaxle : maxE ≤ vols.length := by
      rw [hmax]; split
      · exact le_refl _
      · rename_i hcond
        simp only [Bool.or_eq_true, decide_eq_true_eq, not_or] at hcond
        omega
    have hlenEq : (vols.take maxE).length = maxE := by
      simp [List.length_take]
      omega
    refine ⟨_, _, rfl, ?_, ?_, ?_⟩
    · rw [hlenEq, hmax]
      by_cases h0 : maxEntries = 0 <;>
        by_cases hgt : maxEntries > vols.length <;>
          simp [h0, hgt] <;> omega
    · rw [hlenEq]
    · rw [hlenEq]
      by_cases hc : maxE < vols.length
      · simp [hc, natToString_not_isEmpty]
      · simp only [if_neg hc]
        simp [hc, emptyS]
        decide

/-- C10 counterexample: an empty StartingToken does not parse as a
uint32 (Go's ParseUint errors on the empty string), yet ListVolumes
returns a normal page starting at index zero rather than the
embedded-error reply the claim demands for tokens that do not parse. -/
theorem mock_listVolumes_empty_token_page :
    parseUint32 emptyS = none ∧
    listVolumes [volW] 0 emptyS = .result ([volW], emptyS) :=
  ⟨rfl, rfl⟩

/-- C10 witness: a three-volume service listed from token 1 with
`MaxEntries = 1` returns the middle volume and a nonempty next token. -/
theorem mock_listVolumes_pagination_witness :
    ∃ entries nextToken,
      listVolumes [volW, volW, volW] 1 (toString 1) =
        .result (entries, nextToken) ∧
      entries.length = (if (1 : Nat) = 0 then [volW, volW, volW].length - 1
        else min 1 ([volW, volW, volW].length - 1)) ∧
      entries = ([volW, volW, volW].drop 1).take entries.length ∧
      (nextToken.isEmpty = false ↔ 1 + entries.length < [volW, volW, volW].length) :=
  (mock_listVolumes_pagination [volW, volW, volW] 1 (toString 1)
    (by norm_num)).1 1 (by decide) (by decide)

end Gocsi
